import Mathlib

/-!
Shallow embedding of the `savesvc` daemon (src/src/savesvc.c): the
trigger-driven configuration persister.  Pure functions model the per-cycle
pipeline `InitConfig → WriteConfig (→ WriteConfigVars) → FinalizeConfig`
driven by the listener loop in `RunSvc`, with explicit state passing for the
service state and the filesystem, and explicit fault parameters for the
system calls (`open`, `write`, `rename`) that may fail.
-/

namespace SaveSvc

/-- errno-style success code (`EOK` in the source). -/
def EOK : Int := 0

/-- errno code for invalid arguments. -/
def EINVAL : Int := 22

/-- errno code for a missing file; also the terminator that the registry's
`VAR_GetFirst`/`VAR_GetNext` cursor reports when no more records match. -/
def ENOENT : Int := 2

/-- glibc's `BUFSIZ`: the size of `SaveSvcState.tmpfile` and of the
conversion buffer in `WriteConfigVars`. -/
def BUFSIZ : Nat := 8192

/-- Default output filename (savesvc.c line 116). -/
def DEFAULT_OUTPUT_FILENAME : String := "/tmp/usersettings.cfg"

/-- Default trigger variable name (savesvc.c line 119). -/
def DEFAULT_TRIGGER_VARIABLE : String := "/sys/config/save"

/-- The fixed file header written by `WriteConfig` (savesvc.c line 482):
a header comment line followed by a blank line. -/
def configHeader : String := "@config User Settings\n\n"

/-- One record yielded by the registry's dirty-flag query.  `isStr` is the
`obj.type == VARTYPE_STR` test; `strVal` is the text in the conversion
buffer (the string value itself, or the output `VAROBJECT_ToString` would
produce); `convRc` is the return code of `VAROBJECT_ToString`, consulted
only for non-string records. -/
structure VarRecord where
  name : String
  instanceID : Nat
  isStr : Bool
  strVal : String
  convRc : Int
deriving DecidableEq, Repr

/-- The per-record `rc` after the type dispatch at savesvc.c lines 550-559:
string records are used as-is (`rc = EOK`), other records get the
conversion's return code. -/
def serRc (r : VarRecord) : Int :=
  if r.isStr then EOK else r.convRc

/-- The output line `dprintf`ed for a record whose conversion succeeded
(savesvc.c lines 563-577): `name=value` for the zero instance,
`[instance]name=value` otherwise. -/
def recLine (r : VarRecord) : String :=
  if r.instanceID = 0 then
    r.name ++ "=" ++ r.strVal ++ "\n"
  else
    "[" ++ toString r.instanceID ++ "]" ++ r.name ++ "=" ++ r.strVal ++ "\n"

/-- The per-record diagnostic printed when conversion fails
(savesvc.c line 581). -/
def convDiag (r : VarRecord) : String :=
  "cannot save " ++ r.name

/-- The registry collaborator, abstracted as the finite sequence of records
its dirty-flag cursor yields, plus the non-`EOK` code the cursor returns
once exhausted. -/
structure Registry where
  dirty : List VarRecord
  endRc : Int := ENOENT
deriving DecidableEq, Repr

/-- The enumeration loop body of `WriteConfigVars` (savesvc.c lines
547-588): returns the text appended to the file and the per-record
diagnostics, in cursor order.  Records with `serRc ≠ EOK` are skipped with
a diagnostic; all others are emitted with `recLine`. -/
def writeVarsLoop : List VarRecord → String × List String
  | [] => ("", [])
  | r :: rs =>
    let rest := writeVarsLoop rs
    if serRc r = EOK then
      (recLine r ++ rest.1, rest.2)
    else
      (rest.1, convDiag r :: rest.2)

/-- Concatenation of a list of output lines. -/
def concatLines : List String → String
  | [] => ""
  | s :: rest => s ++ concatLines rest

/-- Filesystem model: the canonical file and the temporary file, each
either absent or holding a byte string. -/
structure FS where
  canonical : Option String
  tmp : Option String
deriving DecidableEq, Repr

/-- `SaveSvcState` (savesvc.c lines 71-94), minus the server handle. -/
structure SvcState where
  filename : String
  triggervar : String
  hTriggerVar : Int
  verbose : Bool
  fd : Int
  tmpfile : String
deriving DecidableEq, Repr

/-- The state `main` builds before running the service (savesvc.c lines
157-167): defaults filled in, file descriptor cleared to -1. -/
def initState : SvcState :=
  { filename := DEFAULT_OUTPUT_FILENAME
    triggervar := DEFAULT_TRIGGER_VARIABLE
    hTriggerVar := 0
    verbose := false
    fd := -1
    tmpfile := "" }

/-- Outcomes of the fallible system calls during one cycle: whether `open`
fails and with which errno, how many bytes the header `write` reports, and
whether `rename` fails and with which errno. -/
structure Faults where
  openFails : Bool
  openErrno : Int
  headerWritten : Nat
  renameFails : Bool
  renameErrno : Int
deriving DecidableEq, Repr

/-- A cycle in which every system call succeeds. -/
def noFaults : Faults :=
  { openFails := false
    openErrno := 13
    headerWritten := configHeader.length
    renameFails := false
    renameErrno := 13 }

/-- Result of one pipeline step: updated state, filesystem, return code and
diagnostics printed. -/
structure StepOut where
  st : SvcState
  fs : FS
  rc : Int
  diags : List String
deriving DecidableEq, Repr

/-- The open-flag set used for the temporary file.  Modelled so the flag
word at savesvc.c line 443 is checkable bit by bit. -/
structure OpenFlags where
  o_creat : Bool
  o_wronly : Bool
  o_trunc : Bool
deriving DecidableEq, Repr

/-- The flags `InitConfig` actually passes to `open` (savesvc.c line 443):
`O_CREAT | O_WRONLY` — no `O_TRUNC`. -/
def initOpenFlags : OpenFlags :=
  { o_creat := true, o_wronly := true, o_trunc := false }

/-- The permission mode `InitConfig` passes to `open` (savesvc.c line 443). -/
def initOpenMode : Nat := 0o644

/-- `InitConfig` (savesvc.c lines 416-459): build the temporary name with
`snprintf("%s.%s", filename, ".tmp")`, unlink any stale temporary file (the
unlink result is stored but then overwritten by the open's result), and
open the temporary file with `O_CREAT | O_WRONLY, 0644`.  The freshly
created file is empty because the unlink ran first. -/
def InitConfig (st : SvcState) (fs : FS) (f : Faults) : StepOut :=
  let tmpname := st.filename ++ "." ++ ".tmp"
  let n := tmpname.length
  if 0 < n ∧ n < BUFSIZ then
    let fs1 : FS := { fs with tmp := none }
    if f.openFails then
      { st := { st with tmpfile := tmpname, fd := -1 }
        fs := fs1
        rc := f.openErrno
        diags := [] }
    else
      { st := { st with tmpfile := tmpname, fd := 3 }
        fs := { fs1 with tmp := some "" }
        rc := EOK
        diags := [] }
  else
    { st := { st with tmpfile := tmpname.take (BUFSIZ - 1) }
      fs := fs
      rc := EINVAL
      diags := [] }

/-- `WriteConfig` (savesvc.c lines 479-510): write the header; on a full
write, run the enumeration body; either way close the descriptor and —
line 506 — set the result to `EOK` unconditionally, so a short header
write only prints `Header output failed` and skips the body without
failing the cycle. -/
def WriteConfig (st : SvcState) (fs : FS) (f : Faults) (reg : Registry) :
    StepOut :=
  if st.fd ≠ -1 then
    let len := configHeader.length
    let n := min f.headerWritten len
    let tmp0 := fs.tmp.getD ""
    if n ≠ len then
      { st := { st with fd := -1 }
        fs := { fs with tmp := some (tmp0 ++ configHeader.take n) }
        rc := EOK
        diags := ["Header output failed"] }
    else
      let vars := writeVarsLoop reg.dirty
      { st := { st with fd := -1 }
        fs := { fs with tmp := some (tmp0 ++ configHeader ++ vars.1) }
        rc := EOK
        diags := vars.2 }
  else
    { st := st, fs := fs, rc := EINVAL, diags := [] }

/-- `FinalizeConfig` (savesvc.c lines 615-629): rename the temporary file
onto the canonical path.  On failure nothing is touched — in particular the
temporary file is not removed. -/
def FinalizeConfig (st : SvcState) (fs : FS) (f : Faults) : StepOut :=
  if f.renameFails then
    { st := st, fs := fs, rc := f.renameErrno, diags := [] }
  else
    match fs.tmp with
    | some content =>
      { st := st
        fs := { canonical := some content, tmp := none }
        rc := EOK
        diags := [] }
    | none => { st := st, fs := fs, rc := ENOENT, diags := [] }

/-- One persistence cycle: the body of the matching branch of `RunSvc`
(savesvc.c lines 372-388).  `InitConfig` gates `WriteConfig`, which gates
`FinalizeConfig`; a non-`EOK` aggregate result prints the diagnostic
naming the target path. -/
def runCycle (st : SvcState) (fs : FS) (reg : Registry) (f : Faults) :
    StepOut :=
  let i := InitConfig st fs f
  let afterAll :=
    if i.rc = EOK then
      let w := WriteConfig i.st i.fs f reg
      if w.rc = EOK then
        let fin := FinalizeConfig w.st w.fs f
        { fin with diags := i.diags ++ w.diags ++ fin.diags }
      else
        { w with diags := i.diags ++ w.diags }
    else i
  if afterAll.rc ≠ EOK then
    { afterAll with
        diags := afterAll.diags ++
          ["Failed to create configuration file: " ++ st.filename] }
  else afterAll

/-- Result of command-line processing (`ProcessOptions`, savesvc.c lines
286-324): the fields of `SaveSvcState` it sets, the usage flag, and the
diagnostics the C library's `getopt` prints itself (`opterr` is left at
its default and the option string does not start with a colon, so `getopt`
reports unrecognized options and missing arguments on stderr). -/
structure Opts where
  filename : String
  triggervar : String
  verbose : Bool
  usageShown : Bool
  getoptDiags : List String
deriving DecidableEq, Repr

/-- The option state on entry to `ProcessOptions`: `main` has already set
the defaults (savesvc.c lines 161-164). -/
def defaultOpts : Opts :=
  { filename := DEFAULT_OUTPUT_FILENAME
    triggervar := DEFAULT_TRIGGER_VARIABLE
    verbose := false
    usageShown := false
    getoptDiags := [] }

/-- Whether an argv element is an option element for `getopt`: starts with
a dash, is not a bare dash, and is not the `--` terminator. -/
def isOptElem (a : String) : Bool :=
  a.length ≥ 2 && a.front == '-' && a != "--"

/-- Store an option argument for `-t` or `-f` (savesvc.c lines 304-310). -/
def setOptArg (c : Char) (arg : String) (o : Opts) : Opts :=
  if c = 't' then { o with triggervar := arg } else { o with filename := arg }

/-- Outcome of processing the option characters of one argv element:
either the element is exhausted, or its last character was `t` or `f` and
the option argument must come from the next argv element. -/
inductive CharsOut where
  | done (o : Opts)
  | needArg (c : Char) (o : Opts)
deriving DecidableEq, Repr

/-- Process the option characters of a single argv element under option
string `"hvt:f:"` (savesvc.c lines 291-320): `v` and `h` are flags; `t`
and `f` take an argument, the rest of the element if non-empty, else the
next argv element; an unrecognized character makes `getopt` print an
invalid-option diagnostic and return `?`, which the switch's `default`
case ignores. -/
def procChars : List Char → Opts → CharsOut
  | [], o => .done o
  | c :: cs, o =>
    if c = 'v' then procChars cs { o with verbose := true }
    else if c = 'h' then procChars cs { o with usageShown := true }
    else if c = 't' || c = 'f' then
      match cs with
      | [] => .needArg c o
      | c2 :: cs2 => .done (setOptArg c (String.mk (c2 :: cs2)) o)
    else
      procChars cs
        { o with getoptDiags := o.getoptDiags ++
            ["invalid option -- " ++ String.mk [c]] }

/-- The `getopt` scan over the argv elements after the command name, with
POSIX semantics: scan left to right, stopping at the first non-option
element (or at `--`); a trailing `t`/`f` consumes the next element as its
argument, and a missing argument makes `getopt` print a diagnostic. -/
def procArgs : List String → Opts → Opts
  | [], o => o
  | a :: rest, o =>
    if isOptElem a then
      match procChars (a.toList.drop 1) o with
      | .done o2 => procArgs rest o2
      | .needArg c o2 =>
        match rest with
        | arg :: rest2 => procArgs rest2 (setOptArg c arg o2)
        | [] =>
          { o2 with getoptDiags := o2.getoptDiags ++
              ["option requires an argument -- " ++ String.mk [c]] }
    else o

/-- `ProcessOptions` over a full argv (command name first): `getopt`
starts at index 1.  The C function always returns 0 and never exits. -/
def ProcessOptions (argv : List String) : Opts :=
  procArgs (argv.drop 1) defaultOpts

/-- The varserver library's modified-notification signal number.  Only the
equality test at savesvc.c line 364 matters to the claims, never the
concrete value. -/
def SIG_VAR_MODIFIED : Int := 35

/-- One notification delivered by `VARSERVER_WaitSignalfd`: the signal
number and the signal value (the subject variable handle). -/
structure Event where
  sig : Int
  sigval : Int
deriving DecidableEq, Repr

/-- Result of one listener-loop iteration. -/
structure LoopOut where
  st : SvcState
  fs : FS
  diags : List String
  ranCycle : Bool
deriving DecidableEq, Repr

/-- One iteration of the `RunSvc` wait loop (savesvc.c lines 359-390): a
cycle runs exactly when the signal is `SIG_VAR_MODIFIED` and the signal
value equals the trigger handle; any other event leaves everything
untouched and the loop waits again. -/
def processEvent (st : SvcState) (fs : FS) (reg : Registry) (f : Faults)
    (e : Event) : LoopOut :=
  if e.sig = SIG_VAR_MODIFIED ∧ st.hTriggerVar = e.sigval then
    let c := runCycle st fs reg f
    { st := c.st, fs := c.fs, diags := c.diags, ranCycle := true }
  else
    { st := st, fs := fs, diags := [], ranCycle := false }

/-- Whether a record survives the type dispatch (its line gets written). -/
def serOk (r : VarRecord) : Bool :=
  serRc r == EOK

/-! ### Helper lemmas about the pipeline steps -/

theorem tmpname_length (st : SvcState) :
    (st.filename ++ "." ++ ".tmp").length = st.filename.length + 5 := by
  have h1 : ".".length = 1 := rfl
  have h2 : ".tmp".length = 4 := rfl
  simp [String.length_append, h1, h2]

theorem writeVarsLoop_eq (l : List VarRecord) :
    writeVarsLoop l =
      (concatLines ((l.filter serOk).map recLine),
       (l.filter fun r => !serOk r).map convDiag) := by
  induction l with
  | nil => rfl
  | cons r rs ih =>
    by_cases h : serRc r = EOK <;>
      simp [writeVarsLoop, h, ih, concatLines, serOk]

theorem initConfig_ok (st : SvcState) (fs : FS) (f : Faults)
    (hlen : st.filename.length + 5 < BUFSIZ) (hopen : f.openFails = false) :
    InitConfig st fs f =
      { st := { st with tmpfile := st.filename ++ "." ++ ".tmp", fd := 3 }
        fs := { canonical := fs.canonical, tmp := some "" }
        rc := EOK
        diags := [] } := by
  have hcond : 0 < (st.filename ++ "." ++ ".tmp").length ∧
      (st.filename ++ "." ++ ".tmp").length < BUFSIZ := by
    rw [tmpname_length]; exact ⟨by omega, hlen⟩
  simp only [InitConfig]
  rw [if_pos hcond]
  simp [hopen]

theorem initConfig_openFail (st : SvcState) (fs : FS) (f : Faults)
    (hlen : st.filename.length + 5 < BUFSIZ) (hopen : f.openFails = true) :
    InitConfig st fs f =
      { st := { st with tmpfile := st.filename ++ "." ++ ".tmp", fd := -1 }
        fs := { canonical := fs.canonical, tmp := none }
        rc := f.openErrno
        diags := [] } := by
  have hcond : 0 < (st.filename ++ "." ++ ".tmp").length ∧
      (st.filename ++ "." ++ ".tmp").length < BUFSIZ := by
    rw [tmpname_length]; exact ⟨by omega, hlen⟩
  simp only [InitConfig]
  rw [if_pos hcond]
  simp [hopen]

theorem writeConfig_ok (st : SvcState) (fs : FS) (f : Faults) (reg : Registry)
    (hfd : st.fd ≠ -1) (hhdr : f.headerWritten = configHeader.length) :
    WriteConfig st fs f reg =
      { st := { st with fd := -1 }
        fs := { fs with
                  tmp := some (fs.tmp.getD "" ++ configHeader ++
                    (writeVarsLoop reg.dirty).1) }
        rc := EOK
        diags := (writeVarsLoop reg.dirty).2 } := by
  unfold WriteConfig
  rw [if_pos hfd, hhdr]
  simp

theorem writeConfig_fields (st : SvcState) (fs : FS) (f : Faults)
    (reg : Registry) (hfd : st.fd ≠ -1) :
    (WriteConfig st fs f reg).rc = EOK ∧
    (WriteConfig st fs f reg).st = { st with fd := -1 } ∧
    (WriteConfig st fs f reg).fs.canonical = fs.canonical ∧
    ((WriteConfig st fs f reg).fs.tmp.isSome = true) := by
  unfold WriteConfig
  rw [if_pos hfd]
  by_cases h : min f.headerWritten configHeader.length = configHeader.length <;>
    simp [h]

theorem writeConfig_full (st : SvcState) (fs : FS) (f : Faults)
    (reg : Registry) (hfd : st.fd ≠ -1)
    (hmin : min f.headerWritten configHeader.length = configHeader.length) :
    WriteConfig st fs f reg =
      { st := { st with fd := -1 }
        fs := { fs with
                  tmp := some (fs.tmp.getD "" ++ configHeader ++
                    (writeVarsLoop reg.dirty).1) }
        rc := EOK
        diags := (writeVarsLoop reg.dirty).2 } := by
  unfold WriteConfig
  rw [if_pos hfd]
  simp [hmin]

theorem writeConfig_short (st : SvcState) (fs : FS) (f : Faults)
    (reg : Registry) (hfd : st.fd ≠ -1)
    (hshort : min f.headerWritten configHeader.length ≠ configHeader.length) :
    WriteConfig st fs f reg =
      { st := { st with fd := -1 }
        fs := { fs with
                  tmp := some (fs.tmp.getD "" ++
                    configHeader.take (min f.headerWritten configHeader.length)) }
        rc := EOK
        diags := ["Header output failed"] } := by
  unfold WriteConfig
  rw [if_pos hfd]
  simp [hshort]

theorem empty_append_str (s : String) : "" ++ s = s := rfl

theorem runCycle_ok (st : SvcState) (fs : FS) (reg : Registry) (f : Faults)
    (hlen : st.filename.length + 5 < BUFSIZ) (hopen : f.openFails = false)
    (hhdr : f.headerWritten = configHeader.length)
    (hren : f.renameFails = false) :
    runCycle st fs reg f =
      { st := { st with tmpfile := st.filename ++ "." ++ ".tmp", fd := -1 }
        fs := { canonical := some (configHeader ++ (writeVarsLoop reg.dirty).1)
                tmp := none }
        rc := EOK
        diags := (writeVarsLoop reg.dirty).2 } := by
  unfold runCycle
  rw [initConfig_ok st fs f hlen hopen]
  simp only []
  rw [writeConfig_ok _ _ f reg (by simp) hhdr]
  simp [FinalizeConfig, hren, empty_append_str, EOK]

/-! ### Claim theorems -/

/-- A fault set in which the header `write` reports 0 bytes written (a
short write / write error), everything else succeeding. -/
def headerFault : Faults :=
  { noFaults with headerWritten := 0 }

/-- Claim C1: the spec states that a failed step before the rename — in
particular a short write or write error on the header — aborts the cycle
so that no rename occurs and the canonical file is unchanged.  The code
violates this: `WriteConfig` prints `Header output failed` but then sets
its result to `EOK` unconditionally (savesvc.c line 506), so the cycle
proceeds to `FinalizeConfig` and renames the empty temporary file onto the
canonical path.  Evaluated at a cycle whose header write reports 0 bytes:
the cycle reports success and the canonical file content changes from
`old` to empty. -/
theorem c1_header_failure_commits :
    (runCycle initState ⟨some "old", none⟩
        { dirty := [⟨"/sys/name", 0, true, "alice", 0⟩] } headerFault).rc
      = EOK ∧
    (runCycle initState ⟨some "old", none⟩
        { dirty := [⟨"/sys/name", 0, true, "alice", 0⟩] } headerFault).fs.canonical
      = some "" ∧
    (runCycle initState ⟨some "old", none⟩
        { dirty := [⟨"/sys/name", 0, true, "alice", 0⟩] } headerFault).fs.canonical
      ≠ some "old" ∧
    "Header output failed" ∈
      (runCycle initState ⟨some "old", none⟩
        { dirty := [⟨"/sys/name", 0, true, "alice", 0⟩] } headerFault).diags := by
  decide

/-- Claim C2, counterexample to the claim as stated: a cycle whose header
write is short is still a successful cycle under the code (`rc = EOK`),
yet the canonical file afterwards is not the header followed by the lines
of the dirty records. -/
theorem c2_header_failure_counterexample :
    (runCycle initState ⟨none, none⟩
        { dirty := [⟨"/dev/temp", 3, false, "42", 0⟩] } headerFault).rc
      = EOK ∧
    (runCycle initState ⟨none, none⟩
        { dirty := [⟨"/dev/temp", 3, false, "42", 0⟩] } headerFault).fs.canonical
      ≠ some (configHeader ++
          concatLines ((([⟨"/dev/temp", 3, false, "42", 0⟩] :
            List VarRecord).filter serOk).map recLine)) := by
  decide

/-- Claim C2 (amended: restricted to cycles whose header write is
complete, since the code treats a short header write as success): for
every cycle in which the open succeeds, the header write is complete and
the rename succeeds, the canonical file afterwards is exactly the fixed
header comment line plus blank line, then one line per record the registry
yielded minus those whose conversion failed, in registry order; each line
has the form `name=value` or `[id]name=value`. -/
theorem c2_successful_cycle_content (st : SvcState) (fs : FS)
    (reg : Registry) (f : Faults)
    (hlen : st.filename.length + 5 < BUFSIZ) (hopen : f.openFails = false)
    (hhdr : f.headerWritten = configHeader.length)
    (hren : f.renameFails = false) :
    (runCycle st fs reg f).rc = EOK ∧
    (runCycle st fs reg f).fs.canonical =
      some (configHeader ++
        concatLines ((reg.dirty.filter serOk).map recLine)) ∧
    ∀ r : VarRecord,
      recLine r = r.name ++ "=" ++ r.strVal ++ "\n" ∨
      recLine r = "[" ++ toString r.instanceID ++ "]" ++ r.name ++ "=" ++
        r.strVal ++ "\n" := by
  rw [runCycle_ok st fs reg f hlen hopen hhdr hren, writeVarsLoop_eq]
  refine ⟨rfl, rfl, ?_⟩
  intro r
  by_cases h : r.instanceID = 0
  · left; simp [recLine, h]
  · right; simp [recLine, h]

/-- Witness for C2: a concrete successful cycle with one plain and one
instance-qualified record yields exactly the expected bytes. -/
theorem c2_successful_cycle_content_witness :
    (runCycle initState ⟨none, none⟩
        { dirty := [⟨"/sys/name", 0, true, "alice", 0⟩,
                    ⟨"/dev/temp", 3, false, "42", 0⟩] } noFaults).fs.canonical =
      some (configHeader ++
        concatLines (((([⟨"/sys/name", 0, true, "alice", 0⟩,
          ⟨"/dev/temp", 3, false, "42", 0⟩] : List VarRecord)).filter
            serOk).map recLine)) :=
  (c2_successful_cycle_content initState ⟨none, none⟩
    { dirty := [⟨"/sys/name", 0, true, "alice", 0⟩,
                ⟨"/dev/temp", 3, false, "42", 0⟩] } noFaults
    (by decide) rfl rfl rfl).2.1

/-- Claim C3: a rename failure makes the cycle report an error with a
diagnostic naming the target path; the temporary file is left in place and
the canonical file keeps its prior content. -/
theorem c3_rename_failure (st : SvcState) (fs : FS) (reg : Registry)
    (f : Faults) (hlen : st.filename.length + 5 < BUFSIZ)
    (hopen : f.openFails = false) (hren : f.renameFails = true)
    (herr : f.renameErrno ≠ EOK) :
    (runCycle st fs reg f).rc ≠ EOK ∧
    ("Failed to create configuration file: " ++ st.filename) ∈
      (runCycle st fs reg f).diags ∧
    (runCycle st fs reg f).fs.tmp.isSome = true ∧
    (runCycle st fs reg f).fs.canonical = fs.canonical := by
  unfold runCycle
  rw [initConfig_ok st fs f hlen hopen]
  simp only []
  simp only [EOK] at herr
  by_cases hh : min f.headerWritten configHeader.length = configHeader.length
  · rw [writeConfig_full _ _ f reg (by simp) hh]
    simp [FinalizeConfig, hren, herr, EOK]
  · rw [writeConfig_short _ _ f reg (by simp) hh]
    simp [FinalizeConfig, hren, herr, EOK]

/-- Witness for C3: a concrete cycle whose rename fails keeps the old
canonical content. -/
theorem c3_rename_failure_witness :
    (runCycle initState ⟨some "old", none⟩
        { dirty := [⟨"/sys/name", 0, true, "alice", 0⟩] }
        { noFaults with renameFails := true }).fs.canonical = some "old" :=
  (c3_rename_failure initState ⟨some "old", none⟩
    { dirty := [⟨"/sys/name", 0, true, "alice", 0⟩] }
    { noFaults with renameFails := true }
    (by decide) rfl rfl (by decide)).2.2.2

/-- Claim C4: a record whose type-to-string conversion fails is skipped
with a per-record diagnostic naming the variable, enumeration continues,
and the cycle still completes successfully containing exactly the lines of
the records that converted. -/
theorem c4_skip_bad_records (st : SvcState) (fs : FS) (reg : Registry)
    (f : Faults) (hlen : st.filename.length + 5 < BUFSIZ)
    (hopen : f.openFails = false)
    (hhdr : f.headerWritten = configHeader.length)
    (hren : f.renameFails = false) :
    (runCycle st fs reg f).rc = EOK ∧
    (runCycle st fs reg f).fs.canonical =
      some (configHeader ++
        concatLines ((reg.dirty.filter serOk).map recLine)) ∧
    (∀ r ∈ reg.dirty, serOk r = false →
      convDiag r ∈ (runCycle st fs reg f).diags) ∧
    ∀ r : VarRecord, convDiag r = "cannot save " ++ r.name := by
  rw [runCycle_ok st fs reg f hlen hopen hhdr hren, writeVarsLoop_eq]
  refine ⟨rfl, rfl, ?_, fun r => rfl⟩
  intro r hr hbad
  exact List.mem_map_of_mem _ (List.mem_filter.mpr ⟨hr, by simp [hbad]⟩)

/-- Witness for C4, the spec's concrete scenario 5: one of three dirty
variables fails conversion; its diagnostic is printed and the cycle still
succeeds. -/
theorem c4_skip_bad_records_witness :
    convDiag ⟨"/dev/bad", 0, false, "", 5⟩ ∈
      (runCycle initState ⟨none, none⟩
        { dirty := [⟨"/sys/name", 0, true, "alice", 0⟩,
                    ⟨"/dev/bad", 0, false, "", 5⟩,
                    ⟨"/dev/temp", 3, false, "42", 0⟩] } noFaults).diags :=
  (c4_skip_bad_records initState ⟨none, none⟩
    { dirty := [⟨"/sys/name", 0, true, "alice", 0⟩,
                ⟨"/dev/bad", 0, false, "", 5⟩,
                ⟨"/dev/temp", 3, false, "42", 0⟩] } noFaults
    (by decide) rfl rfl rfl).2.2.1 ⟨"/dev/bad", 0, false, "", 5⟩
    (by decide) (by decide)

theorem append_assoc_str (a b c : String) : a ++ b ++ c = a ++ (b ++ c) := by
  apply String.ext
  simp [String.data_append, List.append_assoc]

/-- Claim C5, counterexample to "the two forms never collide" as stated:
nothing constrains variable names, so a zero-instance variable whose name
itself starts with a bracketed prefix emits the same line as an
instance-qualified variable. -/
theorem c5_collision_counterexample :
    recLine ⟨"[3]x", 0, true, "v", 0⟩ = recLine ⟨"x", 3, true, "v", 0⟩ ∧
    (⟨"[3]x", 0, true, "v", 0⟩ : VarRecord).instanceID = 0 ∧
    (⟨"x", 3, true, "v", 0⟩ : VarRecord).instanceID ≠ 0 := by
  decide

/-- Claim C5 (amended: collision-freedom additionally requires that the
zero-instance variable's name does not itself begin with `[`): a zero
instance id never emits a bracketed prefix, a non-zero instance id always
does, and the two line forms differ whenever the unqualified name does not
start with `[`. -/
theorem c5_instance_format (r1 r2 : VarRecord)
    (h0 : r1.instanceID = 0) (hn : r2.instanceID ≠ 0)
    (hname : r1.name.data.head? ≠ some '[') :
    recLine r1 = r1.name ++ "=" ++ r1.strVal ++ "\n" ∧
    recLine r2 = "[" ++ toString r2.instanceID ++ "]" ++ r2.name ++ "=" ++
      r2.strVal ++ "\n" ∧
    recLine r1 ≠ recLine r2 := by
  have e1 : recLine r1 = r1.name ++ "=" ++ r1.strVal ++ "\n" := by
    simp [recLine, h0]
  have e2 : recLine r2 = "[" ++ toString r2.instanceID ++ "]" ++ r2.name ++
      "=" ++ r2.strVal ++ "\n" := by
    simp [recLine, hn]
  refine ⟨e1, e2, ?_⟩
  intro heq
  apply hname
  have hdata : (r1.name ++ "=" ++ r1.strVal ++ "\n").data =
      ("[" ++ toString r2.instanceID ++ "]" ++ r2.name ++ "=" ++ r2.strVal ++
        "\n").data := by
    rw [← e1, ← e2, heq]
  have d1 : "=".data = ['='] := rfl
  have d2 : "\n".data = ['\n'] := rfl
  have d3 : "[".data = ['['] := rfl
  have d4 : "]".data = [']'] := rfl
  simp only [String.data_append, d1, d2, d3, d4, List.append_assoc,
    List.singleton_append] at hdata
  cases hnm : r1.name.data with
  | nil =>
    rw [hnm] at hdata
    simp only [List.nil_append] at hdata
    injection hdata with h1 _
    exact absurd h1 (by decide)
  | cons c cd =>
    rw [hnm] at hdata
    simp only [List.cons_append] at hdata
    injection hdata with h1 _
    rw [h1]
    rfl

/-- Witness for C5 at the spec's concrete scenarios 1 and 2. -/
theorem c5_instance_format_witness :
    recLine ⟨"/sys/name", 0, true, "alice", 0⟩ ≠
      recLine ⟨"/dev/temp", 3, false, "42", 0⟩ :=
  (c5_instance_format ⟨"/sys/name", 0, true, "alice", 0⟩
    ⟨"/dev/temp", 3, false, "42", 0⟩ rfl (by decide) (by decide)).2.2

/-- Claim C6: a persistence cycle runs if and only if the received event
is a modified notification whose subject equals the trigger handle; any
other event leaves the state, the filesystem and the output untouched. -/
theorem c6_trigger_filter (st : SvcState) (fs : FS) (reg : Registry)
    (f : Faults) (e : Event) :
    ((processEvent st fs reg f e).ranCycle = true ↔
      (e.sig = SIG_VAR_MODIFIED ∧ st.hTriggerVar = e.sigval)) ∧
    (¬(e.sig = SIG_VAR_MODIFIED ∧ st.hTriggerVar = e.sigval) →
      processEvent st fs reg f e =
        { st := st, fs := fs, diags := [], ranCycle := false }) := by
  unfold processEvent
  by_cases h : e.sig = SIG_VAR_MODIFIED ∧ st.hTriggerVar = e.sigval <;>
    simp [h]

/-- Witness for C6, the spec's concrete scenario 4: a modified event for a
handle other than the trigger handle runs no cycle and changes nothing. -/
theorem c6_trigger_filter_witness :
    processEvent initState ⟨some "old", none⟩ { dirty := [] } noFaults
        ⟨SIG_VAR_MODIFIED, 5⟩ =
      { st := initState, fs := ⟨some "old", none⟩, diags := [],
        ranCycle := false } :=
  (c6_trigger_filter initState ⟨some "old", none⟩ { dirty := [] } noFaults
    ⟨SIG_VAR_MODIFIED, 5⟩).2 (by decide)

/-- Claim C7, counterexample to the claim as stated: the `open` call at
savesvc.c line 443 passes `O_CREAT | O_WRONLY` only — there is no
`O_TRUNC`, so "truncate semantics" is not part of the flag set (freshness
comes from the preceding unlink instead). -/
theorem c7_no_trunc_counterexample : initOpenFlags.o_trunc = false := by
  decide

/-- Claim C7 (amended: the temporary file is opened create-if-absent and
write-only under mode 0644 but without the truncate flag; the stale file
is removed by the preceding unlink instead): the temporary path is the
target path plus the fixed suffix `..tmp`, a cycle with no stale temporary
file still initializes fine (the failing unlink is non-fatal), and a
failed creation aborts the cycle with its errno, leaving the canonical
file untouched. -/
theorem c7_init_behavior (st : SvcState) (fs : FS) (f : Faults)
    (reg : Registry) (hlen : st.filename.length + 5 < BUFSIZ) :
    (InitConfig st fs f).st.tmpfile = st.filename ++ "..tmp" ∧
    (f.openFails = false →
      InitConfig st fs f =
        { st := { st with tmpfile := st.filename ++ "." ++ ".tmp", fd := 3 }
          fs := { canonical := fs.canonical, tmp := some "" }
          rc := EOK
          diags := [] }) ∧
    initOpenFlags = { o_creat := true, o_wronly := true, o_trunc := false } ∧
    initOpenMode = 0o644 ∧
    (f.openFails = true → f.openErrno ≠ EOK →
      (runCycle st fs reg f).rc ≠ EOK ∧
      (runCycle st fs reg f).fs.canonical = fs.canonical) := by
  have hassoc : st.filename ++ "." ++ ".tmp" = st.filename ++ "..tmp" :=
    append_assoc_str st.filename "." ".tmp"
  refine ⟨?_, ?_, rfl, rfl, ?_⟩
  · rw [← hassoc]
    by_cases ho : f.openFails
    · rw [initConfig_openFail st fs f hlen ho]
    · rw [initConfig_ok st fs f hlen (by simpa using ho)]
  · intro ho
    exact initConfig_ok st fs f hlen ho
  · intro ho herrno
    simp only [EOK] at herrno
    unfold runCycle
    rw [initConfig_openFail st fs f hlen ho]
    refine ⟨?_, ?_⟩ <;> simp [EOK, herrno]

/-- Witness for C7: the concrete temporary path derived from the default
output path. -/
theorem c7_init_behavior_witness :
    (InitConfig initState ⟨none, none⟩ noFaults).st.tmpfile =
      "/tmp/usersettings.cfg..tmp" :=
  ((c7_init_behavior initState ⟨none, none⟩ noFaults { dirty := [] }
    (by decide)).1).trans (by decide)

/-- Claim C8: two consecutive cycles with the same dirty set and no faults
produce byte-identical canonical files, namely the header plus the lines
of the convertible dirty records. -/
theorem c8_idempotent_cycles (st : SvcState) (fs : FS) (reg : Registry)
    (hlen : st.filename.length + 5 < BUFSIZ) :
    (runCycle st fs reg noFaults).fs.canonical =
      (runCycle (runCycle st fs reg noFaults).st
        (runCycle st fs reg noFaults).fs reg noFaults).fs.canonical ∧
    (runCycle st fs reg noFaults).fs.canonical =
      some (configHeader ++
        concatLines ((reg.dirty.filter serOk).map recLine)) := by
  rw [runCycle_ok st fs reg noFaults hlen rfl rfl rfl]
  rw [runCycle_ok { st with tmpfile := st.filename ++ "." ++ ".tmp", fd := -1 }
    { canonical := some (configHeader ++ (writeVarsLoop reg.dirty).1),
      tmp := none } reg noFaults (by simpa using hlen) rfl rfl rfl]
  rw [writeVarsLoop_eq]
  exact ⟨rfl, rfl⟩

/-- Witness for C8 at a concrete dirty set. -/
theorem c8_idempotent_cycles_witness :
    (runCycle initState ⟨none, none⟩
        { dirty := [⟨"/sys/name", 0, true, "alice", 0⟩] } noFaults).fs.canonical =
      (runCycle
        (runCycle initState ⟨none, none⟩
          { dirty := [⟨"/sys/name", 0, true, "alice", 0⟩] } noFaults).st
        (runCycle initState ⟨none, none⟩
          { dirty := [⟨"/sys/name", 0, true, "alice", 0⟩] } noFaults).fs
        { dirty := [⟨"/sys/name", 0, true, "alice", 0⟩] } noFaults).fs.canonical :=
  (c8_idempotent_cycles initState ⟨none, none⟩
    { dirty := [⟨"/sys/name", 0, true, "alice", 0⟩] } (by decide)).1

/-- Claim C9, counterexample to "no diagnostic is emitted" for
unrecognized options: `opterr` is never cleared and the option string does
not start with `:`, so the C library's `getopt` itself prints an
invalid-option diagnostic. -/
theorem c9_unknown_option_diag_counterexample :
    (ProcessOptions ["savesvc", "-x"]).getoptDiags =
      ["invalid option -- x"] := by
  decide

/-- Claim C9 (amended: the program's own option handling ignores
unrecognized options and never exits, but the C library's `getopt` does
print an invalid-option diagnostic for them): defaults apply when `-f` and
`-t` are absent, `-f`/`-t` set the output path and trigger name, an
unrecognized option character only adds the `getopt` diagnostic and
processing continues with the remaining characters and arguments. -/
theorem c9_options :
    (ProcessOptions ["savesvc"]).filename = DEFAULT_OUTPUT_FILENAME ∧
    (ProcessOptions ["savesvc"]).triggervar = DEFAULT_TRIGGER_VARIABLE ∧
    (∀ path trig : String,
      (ProcessOptions ["savesvc", "-f", path, "-t", trig]).filename = path ∧
      (ProcessOptions ["savesvc", "-f", path, "-t", trig]).triggervar =
        trig) ∧
    (∀ (c : Char) (cs : List Char) (o : Opts),
      c ≠ 'h' → c ≠ 'v' → c ≠ 't' → c ≠ 'f' →
      procChars (c :: cs) o =
        procChars cs
          { o with getoptDiags := o.getoptDiags ++
              ["invalid option -- " ++ String.mk [c]] }) ∧
    (ProcessOptions ["savesvc", "-x", "-v"]).verbose = true := by
  refine ⟨rfl, rfl, ?_, ?_, by decide⟩
  · intro path trig
    exact ⟨rfl, rfl⟩
  · intro c cs o hh hv ht hf
    simp only [procChars]
    simp [hh, hv, ht, hf]

/-- Witness for C9: `-f` and `-t` arguments land in the respective
fields. -/
theorem c9_options_witness :
    (ProcessOptions
      ["savesvc", "-f", "/etc/settings.cfg", "-t", "/sys/trig"]).filename =
      "/etc/settings.cfg" :=
  (c9_options.2.2.1 "/etc/settings.cfg" "/sys/trig").1

theorem initConfig_long (st : SvcState) (fs : FS) (f : Faults)
    (hlong : ¬(0 < (st.filename ++ "." ++ ".tmp").length ∧
      (st.filename ++ "." ++ ".tmp").length < BUFSIZ)) :
    InitConfig st fs f =
      { st := { st with
                  tmpfile := (st.filename ++ "." ++ ".tmp").take (BUFSIZ - 1) }
        fs := fs
        rc := EINVAL
        diags := [] } := by
  simp only [InitConfig]
  rw [if_neg hlong]

theorem writeConfig_noFd (st : SvcState) (fs : FS) (f : Faults)
    (reg : Registry) (hfd : st.fd = -1) :
    WriteConfig st fs f reg = { st := st, fs := fs, rc := EINVAL, diags := [] } := by
  unfold WriteConfig
  rw [if_neg (by simp [hfd])]

theorem finalizeConfig_st (st : SvcState) (fs : FS) (f : Faults) :
    (FinalizeConfig st fs f).st = st := by
  unfold FinalizeConfig
  by_cases h : f.renameFails
  · simp [h]
  · cases htmp : fs.tmp <;> simp [h, htmp]

theorem runCycle_fd (st : SvcState) (fs : FS) (reg : Registry) (f : Faults)
    (h : st.fd = -1) : (runCycle st fs reg f).st.fd = -1 := by
  by_cases hn : st.filename.length + 5 < BUFSIZ
  case neg =>
    have hlong : ¬(0 < (st.filename ++ "." ++ ".tmp").length ∧
        (st.filename ++ "." ++ ".tmp").length < BUFSIZ) := by
      rw [tmpname_length]; omega
    unfold runCycle
    rw [initConfig_long st fs f hlong]
    simp [EOK, EINVAL, h]
  case pos =>
    by_cases ho : f.openFails
    case pos =>
      unfold runCycle
      rw [initConfig_openFail st fs f hn ho]
      by_cases hrc : f.openErrno = EOK
      case pos =>
        simp only [EOK] at hrc
        simp [hrc, EOK, EINVAL, writeConfig_noFd]
      case neg =>
        simp only [EOK] at hrc
        simp [hrc, EOK]
    case neg =>
      unfold runCycle
      rw [initConfig_ok st fs f hn (by simpa using ho)]
      simp only []
      by_cases hh : min f.headerWritten configHeader.length =
          configHeader.length
      case pos =>
        rw [writeConfig_full _ _ f reg (by simp) hh]
        by_cases hren : f.renameFails <;>
          (simp [FinalizeConfig, hren, EOK]; try (split_ifs <;> simp))
      case neg =>
        rw [writeConfig_short _ _ f reg (by simp) hh]
        by_cases hren : f.renameFails <;>
          (simp [FinalizeConfig, hren, EOK]; try (split_ifs <;> simp))

/-- Claim C10: the output file descriptor is -1 at startup and is -1 again
whenever the listener returns to waiting: every cycle that opens the
temporary file closes the descriptor and resets it before the loop
continues, so no descriptor leaks across cycles. -/
theorem c10_fd_invariant (st : SvcState) (fs : FS) (reg : Registry)
    (f : Faults) (e : Event) (h : st.fd = -1) :
    initState.fd = -1 ∧ (processEvent st fs reg f e).st.fd = -1 := by
  refine ⟨rfl, ?_⟩
  unfold processEvent
  by_cases hm : e.sig = SIG_VAR_MODIFIED ∧ st.hTriggerVar = e.sigval
  · rw [if_pos hm]
    exact runCycle_fd st fs reg f h
  · rw [if_neg hm]
    exact h

/-- Witness for C10: a matching event runs a full cycle and the descriptor
is back to -1 afterwards. -/
theorem c10_fd_invariant_witness :
    (processEvent initState ⟨none, none⟩ { dirty := [] } noFaults
        ⟨SIG_VAR_MODIFIED, 0⟩).st.fd = -1 :=
  (c10_fd_invariant initState ⟨none, none⟩ { dirty := [] } noFaults
    ⟨SIG_VAR_MODIFIED, 0⟩ rfl).2

end SaveSvc
